import Mathlib

/-!
Verification of the event-aggregation pipeline of the LA-PULSE repository.

The backend route handlers (the copy with the enrichment pipeline, found both
in the unnamed server source and in src/server/routes.ts) define the canonical
Event record, the deduplicator, the enrichment engine (parking, nearby transit,
trending), the provider adapters (Ticketmaster, Yelp) and the GET /api/events
orchestration.  The repository also bundles older route-handler variants; the
one relevant to the claims (the legacy variant whose Ticketmaster adapter falls
back to its own mock dataset and does not namespace ids) is embedded in the
namespace Legacy.

Numbers: JS integer counters are embedded as Int, JS double arithmetic on
scores and averages as exact rational arithmetic, and geographic coordinates
and haversine distances as real numbers.  Platform functions whose behavior is
not part of the repository (JS Date parsing plus locale rendering inside
formatDate, and Number parsing inside parseFloat) are taken as function
parameters of the adapters.
-/

set_option maxHeartbeats 1000000

/-- The fixed five-element category enum of the canonical Event record. -/
inductive Category
  | entertainment
  | food
  | sports
  | arts
  | bars
deriving DecidableEq

/-- All five values of the category enum. -/
def categoryValues : List Category :=
  [.entertainment, .food, .sports, .arts, .bars]

/-- Derived parking information (the parkingInfo field of an Event). -/
structure ParkingInfo where
  available : Bool
  cost : Option String := none
  locations : Option (List String) := none
deriving DecidableEq

/-- Transit line type of a nearby-transit entry. -/
inductive TransitType
  | metro
  | bus
  | light_rail
deriving DecidableEq

/-- One nearby-transit entry as built at runtime by getNearestTransit.  The
declared shape is type, station and a display distance string; the runtime
objects additionally carry the numeric distanceNum used for filtering and
sorting, which the source never strips. -/
structure TransitEntry where
  type : TransitType
  station : String
  distance : String
  distanceNum : ℝ

/-- The canonical Event record of the aggregation pipeline.  Optional
TypeScript fields are Option; latitude and longitude are real numbers;
counters are integers. -/
structure Event where
  id : String
  title : String
  description : String
  category : Category
  date : String
  time : String
  address : String
  latitude : ℝ
  longitude : ℝ
  imageUrl : Option String := none
  ticketUrl : Option String := none
  viewCount : Option ℤ := none
  favoriteCount : Option ℤ := none
  isTrending : Option Bool := none
  parkingInfo : Option ParkingInfo := none
  nearbyTransit : Option (List TransitEntry) := none

/-- A throwaway Event used as the default of List.getD. -/
def defaultEvent : Event :=
  { id := "", title := "", description := "", category := .entertainment,
    date := "", time := "", address := "", latitude := 0, longitude := 0 }

instance : Inhabited Event := ⟨defaultEvent⟩

/-! ### Deduplicator

Source (identical in the pipeline copy of the unnamed server file and in
src/server/routes.ts): insert every event into a Map keyed by id, skipping ids
already present, then return the Map values.  A JS Map iterates in insertion
order, so the result lists the first occurrence of every id, in input order.
The Map of seen keys is embedded as the list of ids inserted so far. -/

/-- Loop of deduplicateEvents: walk the input, skip events whose id was seen,
otherwise keep the event and record its id. -/
def dedupGo (seen : List String) : List Event → List Event
  | [] => []
  | e :: rest =>
      if e.id ∈ seen then dedupGo seen rest
      else e :: dedupGo (e.id :: seen) rest

/-- deduplicateEvents from the route handlers. -/
def deduplicateEvents (events : List Event) : List Event :=
  dedupGo [] events

lemma dedupGo_sublist : ∀ (seen : List String) (l : List Event),
    (dedupGo seen l).Sublist l
  | _, [] => List.Sublist.slnil
  | seen, e :: rest => by
      by_cases h : e.id ∈ seen
      · simpa [dedupGo, h] using (dedupGo_sublist seen rest).cons e
      · simpa [dedupGo, h] using (dedupGo_sublist (e.id :: seen) rest).cons₂ e

lemma mem_dedupGo_not_seen : ∀ {seen : List String} {l : List Event}
    {e : Event}, e ∈ dedupGo seen l → e.id ∉ seen := by
  intro seen l
  induction l generalizing seen with
  | nil => intro e he; simp [dedupGo] at he
  | cons x rest ih =>
      intro e he
      by_cases h : x.id ∈ seen
      · simp only [dedupGo, if_pos h] at he
        exact ih he
      · simp only [dedupGo, if_neg h] at he
        rcases List.mem_cons.mp he with he | he
        · subst he; exact h
        · have := ih he
          exact fun hc => this (List.mem_cons_of_mem _ hc)

lemma dedupGo_pairwise : ∀ (seen : List String) (l : List Event),
    (dedupGo seen l).Pairwise (fun a b => a.id ≠ b.id) := by
  intro seen l
  induction l generalizing seen with
  | nil => simp [dedupGo]
  | cons x rest ih =>
      by_cases h : x.id ∈ seen
      · simpa [dedupGo, h] using ih seen
      · simp only [dedupGo, if_neg h]
        refine List.Pairwise.cons ?_ (ih (x.id :: seen))
        intro b hb
        have : b.id ∉ x.id :: seen := mem_dedupGo_not_seen hb
        exact fun hbid => this (by simp [← hbid])

lemma dedupGo_find? : ∀ (seen : List String) (l : List Event) (e : Event),
    e ∈ dedupGo seen l → l.find? (fun x => x.id == e.id) = some e := by
  intro seen l
  induction l generalizing seen with
  | nil => intro e he; simp [dedupGo] at he
  | cons x rest ih =>
      intro e he
      by_cases h : x.id ∈ seen
      · simp only [dedupGo, if_pos h] at he
        have hfind := ih seen e he
        have hne : e.id ∉ seen := mem_dedupGo_not_seen he
        have hxe : (x.id == e.id) = false := by
          simp only [beq_eq_false_iff_ne, ne_eq]
          intro hx; exact hne (hx ▸ h)
        simp [List.find?_cons, hxe, hfind]
      · simp only [dedupGo, if_neg h] at he
        rcases List.mem_cons.mp he with he | he
        · subst he
          simp [List.find?_cons]
        · have hfind := ih (x.id :: seen) e he
          have hne : e.id ∉ x.id :: seen := mem_dedupGo_not_seen he
          have hxe : (x.id == e.id) = false := by
            simp only [beq_eq_false_iff_ne, ne_eq]
            intro hx
            exact hne (by simp [← hx])
          simp [List.find?_cons, hxe, hfind]

lemma dedupGo_covers : ∀ (seen : List String) (l : List Event) (x : Event),
    x ∈ l → x.id ∈ seen ∨ ∃ e ∈ dedupGo seen l, e.id = x.id := by
  intro seen l
  induction l generalizing seen with
  | nil => intro x hx; simp at hx
  | cons y rest ih =>
      intro x hx
      by_cases h : y.id ∈ seen
      · rcases List.mem_cons.mp hx with hx | hx
        · subst hx; exact Or.inl h
        · rcases ih seen x hx with hc | ⟨e, he, hid⟩
          · exact Or.inl hc
          · exact Or.inr ⟨e, by simp [dedupGo, h, he], hid⟩
      · rcases List.mem_cons.mp hx with hx | hx
        · subst hx
          exact Or.inr ⟨x, by simp [dedupGo, h], rfl⟩
        · rcases ih (y.id :: seen) x hx with hc | ⟨e, he, hid⟩
          · rcases List.mem_cons.mp hc with hc | hc
            · exact Or.inr ⟨y, by simp [dedupGo, h], hc.symm⟩
            · exact Or.inl hc
          · exact Or.inr ⟨e, by simp [dedupGo, h, he], hid⟩

lemma dedupGo_id_on_unique : ∀ (seen : List String) (l : List Event),
    l.Pairwise (fun a b => a.id ≠ b.id) → (∀ x ∈ l, x.id ∉ seen) →
    dedupGo seen l = l := by
  intro seen l
  induction l generalizing seen with
  | nil => intro _ _; rfl
  | cons x rest ih =>
      intro hp hs
      have hx : x.id ∉ seen := hs x (List.mem_cons_self x rest)
      have hrest : dedupGo (x.id :: seen) rest = rest := by
        refine ih (x.id :: seen) (List.Pairwise.sublist (List.sublist_cons_self x rest) hp) ?_
        intro y hy
        intro hc
        rcases List.mem_cons.mp hc with hc | hc
        · exact (List.pairwise_cons.mp hp).1 y hy hc.symm
        · exact hs y (List.mem_cons_of_mem _ hy) hc
      simp [dedupGo, hx, hrest]

/-- C1: for every input list, deduplicateEvents returns a list in which no two
events share an id, the output is an order-preserving sublist of the input,
every kept event is exactly the first occurrence of its id in input order, and
every id occurring in the input is represented in the output. -/
theorem c1_dedup_first_seen_wins (l : List Event) :
    (deduplicateEvents l).Pairwise (fun a b => a.id ≠ b.id) ∧
    (deduplicateEvents l).Sublist l ∧
    (∀ e ∈ deduplicateEvents l, l.find? (fun x => x.id == e.id) = some e) ∧
    (∀ x ∈ l, ∃ e ∈ deduplicateEvents l, e.id = x.id) := by
  refine ⟨dedupGo_pairwise [] l, dedupGo_sublist [] l, ?_, ?_⟩
  · intro e he
    exact dedupGo_find? [] l e he
  · intro x hx
    rcases dedupGo_covers [] l x hx with hc | h
    · simp at hc
    · exact h

/-- Concrete instantiation of the C1 theorem: a three-event list whose first
and third events share an id. -/
def evA : Event := { defaultEvent with id := "a", title := "first a" }

/-- Second concrete test event. -/
def evB : Event := { defaultEvent with id := "b", title := "only b" }

/-- Third concrete test event, duplicating the id of evA. -/
def evA2 : Event := { defaultEvent with id := "a", title := "second a" }

/-- Witness for C1 at the concrete list [evA, evB, evA2]. -/
theorem c1_dedup_first_seen_wins_witness :
    (deduplicateEvents [evA, evB, evA2]).Pairwise (fun a b => a.id ≠ b.id) ∧
    (deduplicateEvents [evA, evB, evA2]).Sublist [evA, evB, evA2] ∧
    (∀ e ∈ deduplicateEvents [evA, evB, evA2],
      [evA, evB, evA2].find? (fun x => x.id == e.id) = some e) ∧
    (∀ x ∈ [evA, evB, evA2],
      ∃ e ∈ deduplicateEvents [evA, evB, evA2], e.id = x.id) :=
  c1_dedup_first_seen_wins [evA, evB, evA2]

/-- C8: the deduplicator is idempotent, and it is the identity on any input
already free of duplicate ids. -/
theorem c8_dedup_idempotent (l : List Event) :
    deduplicateEvents (deduplicateEvents l) = deduplicateEvents l ∧
    (l.Pairwise (fun a b => a.id ≠ b.id) → deduplicateEvents l = l) := by
  constructor
  · exact dedupGo_id_on_unique [] (deduplicateEvents l)
      (dedupGo_pairwise [] l) (by simp)
  · intro hp
    exact dedupGo_id_on_unique [] l hp (by simp)

/-- Witness for C8: on the duplicate-free list [evA, evB] the deduplicator is
the identity (hypothesis discharged by decide). -/
theorem c8_dedup_idempotent_witness :
    List.Pairwise (fun a b : Event => a.id ≠ b.id) [evA, evB] ∧
    deduplicateEvents [evA, evB] = [evA, evB] :=
  ⟨by decide, (c8_dedup_idempotent [evA, evB]).2 (by decide)⟩

/-! ### Per-event statistics state

The process-wide in-memory eventStats Map is embedded as an association list
from event id to the pair (views, favorites); JS number counters are Int. -/

/-- The eventStats map. -/
abbrev EventStats := List (String × (ℤ × ℤ))

/-- getEventStats: return the stored pair for the id, lazily initializing a
missing entry.  The source initializes a missing entry with
Math.floor(Math.random() * 1000) views and Math.floor(Math.random() * 100)
favorites; the random draw is taken as the parameter init.  Returns the
updated map together with the pair. -/
def getEventStats (init : ℤ × ℤ) (m : EventStats) (eventId : String) :
    EventStats × (ℤ × ℤ) :=
  match m.lookup eventId with
  | some s => (m, s)
  | none => ((eventId, init) :: m, init)

/-- Overwriting update of a stored stats entry (the JS handler mutates the
object returned by getEventStats in place). -/
def setEventStats (m : EventStats) (eventId : String) (v : ℤ × ℤ) :
    EventStats :=
  m.map fun p => if p.1 = eventId then (eventId, v) else p

/-- Handler body of POST /api/events/:id/favorite: read (or lazily initialize)
the stats of the id, then add 1 when the favorited body field is truthy and -1
otherwise (an absent or falsy favorited field takes the -1 branch).  Returns
the updated map together with the favorites value placed in the response. -/
def favoriteRoute (init : ℤ × ℤ) (m : EventStats) (eventId : String)
    (favorited : Bool) : EventStats × ℤ :=
  let res := getEventStats init m eventId
  let favorites := res.2.2 + (if favorited then 1 else -1)
  (setEventStats res.1 eventId (res.2.1, favorites), favorites)

lemma lookup_setEventStats (id : String) (v : ℤ × ℤ) :
    ∀ (m : EventStats) (w : ℤ × ℤ), m.lookup id = some w →
      (setEventStats m id v).lookup id = some v
  | [], w => by intro h; simp [List.lookup] at h
  | (a, b) :: rest, w => by
      intro h
      by_cases hp : a = id
      · subst hp
        have hset : setEventStats ((a, b) :: rest) a v =
            (a, v) :: setEventStats rest a v := by
          simp [setEventStats]
        rw [hset]
        simp [List.lookup]
      · have hbeq : (id == a) = false :=
          beq_eq_false_iff_ne.mpr fun hc => hp hc.symm
        have h' : rest.lookup id = some w := by
          simpa [List.lookup, hbeq] using h
        have hset : setEventStats ((a, b) :: rest) id v =
            (a, b) :: setEventStats rest id v := by
          simp [setEventStats, hp]
        rw [hset, List.lookup_cons]
        simpa [hbeq] using lookup_setEventStats id v rest w h'

lemma getEventStats_lookup (init : ℤ × ℤ) (m : EventStats) (id : String) :
    (getEventStats init m id).1.lookup id =
      some (getEventStats init m id).2 := by
  unfold getEventStats
  cases h : m.lookup id with
  | some s => simp [h]
  | none => simp [h, List.lookup]

/-- C10: with a falsy favorited body field the favorite route adds -1 to the
stored favorites counter: the response value is the stored (or freshly
initialized) favorites minus one, the decremented value is stored back with no
lower bound, and a single such request on a freshly initialized id whose
random draw gave 0 favorites stores and returns -1. -/
theorem c10_favorite_decrement_unbounded (init : ℤ × ℤ) (m : EventStats)
    (id : String) :
    (favoriteRoute init m id false).2 = (getEventStats init m id).2.2 - 1 ∧
    (favoriteRoute init m id false).1.lookup id =
      some ((getEventStats init m id).2.1,
            (getEventStats init m id).2.2 - 1) ∧
    (favoriteRoute (init.1, 0) [] id false).2 = -1 := by
  refine ⟨?_, ?_, ?_⟩
  · simp [favoriteRoute, sub_eq_add_neg]
  · have hl := getEventStats_lookup init m id
    have hset := lookup_setEventStats id
      ((getEventStats init m id).2.1, (getEventStats init m id).2.2 + -1)
      (getEventStats init m id).1 (getEventStats init m id).2 hl
    simpa [favoriteRoute, sub_eq_add_neg] using hset
  · simp [favoriteRoute, getEventStats, List.lookup]

/-! ### Trending engine -/

/-- calculateTrendingScore from the source: favorites * 10 + views. -/
def calculateTrendingScore (views favorites : ℤ) : ℤ :=
  favorites * 10 + views

/-- markTrendingEvents.  Within one call getEventStats yields one fixed
(views, favorites) pair per id (the first access may lazily initialize it), so
the statistics map is embedded as the read-only lookup stats.  Scores are
integers; the batch average and the threshold comparison are exact rational
arithmetic in place of JS double arithmetic.  An event is trending when its
score strictly exceeds avgScore * 1.5. -/
def markTrendingEvents (stats : String → ℤ × ℤ) (events : List Event) :
    List Event :=
  let scores := events.map fun e =>
    calculateTrendingScore (stats e.id).1 (stats e.id).2
  let avgScore : ℚ := (scores.sum : ℚ) / (scores.length : ℚ)
  let threshold : ℚ := avgScore * 1.5
  events.enum.map fun p =>
    let event := p.2
    let s := stats event.id
    let score := scores.getD p.1 0
    { event with
      viewCount := some s.1
      favoriteCount := some s.2
      isTrending := some (decide ((score : ℚ) > threshold)) }

lemma markTrendingEvents_getElem? (stats : String → ℤ × ℤ)
    (events : List Event) (i : ℕ) :
    (markTrendingEvents stats events)[i]? = events[i]?.map fun event =>
      let scores := events.map fun e =>
        calculateTrendingScore (stats e.id).1 (stats e.id).2
      let avgScore : ℚ := (scores.sum : ℚ) / (scores.length : ℚ)
      let s := stats event.id
      { event with
        viewCount := some s.1
        favoriteCount := some s.2
        isTrending := some (decide ((scores.getD i 0 : ℚ) > avgScore * 1.5)) } := by
  simp only [markTrendingEvents, List.getElem?_map, List.getElem?_enum]
  cases events[i]? <;> rfl

lemma scores_getD (stats : String → ℤ × ℤ) (events : List Event) (i : ℕ)
    (hi : i < events.length) :
    (events.map fun e =>
        calculateTrendingScore (stats e.id).1 (stats e.id).2).getD i 0 =
      calculateTrendingScore
        (stats ((events.getD i defaultEvent).id)).1
        (stats ((events.getD i defaultEvent).id)).2 := by
  rw [List.getD_eq_getElem?_getD, List.getElem?_map,
    List.getElem?_eq_getElem hi, List.getD_eq_getElem?_getD,
    List.getElem?_eq_getElem hi]
  rfl

/-- C2: trending score is favorites * 10 + views, and the i-th event of a
batch is flagged trending exactly when its score strictly exceeds 1.5 times
the arithmetic mean score of that batch. -/
theorem c2_trending_threshold (stats : String → ℤ × ℤ) (events : List Event)
    (i : ℕ) (hi : i < events.length) :
    (∀ v f : ℤ, calculateTrendingScore v f = f * 10 + v) ∧
    (((markTrendingEvents stats events).getD i defaultEvent).isTrending
        = some true ↔
      ((calculateTrendingScore
          (stats ((events.getD i defaultEvent).id)).1
          (stats ((events.getD i defaultEvent).id)).2 : ℤ) : ℚ) >
        1.5 * (((events.map fun e =>
            calculateTrendingScore (stats e.id).1 (stats e.id).2).sum : ℚ)
          / (events.length : ℚ))) := by
  refine ⟨fun v f => rfl, ?_⟩
  rw [List.getD_eq_getElem?_getD, markTrendingEvents_getElem?,
    List.getElem?_eq_getElem hi]
  simp only [Option.map_some', Option.getD_some, Option.some.injEq,
    decide_eq_true_eq]
  rw [scores_getD stats events i hi, List.length_map, mul_comm]

/-- Fixed stats lookup for the synthetic four-event batch: the id e4 has 100
views and 0 favorites, every other id has 0 views and 0 favorites. -/
def testStats : String → ℤ × ℤ :=
  fun id => if id = "e4" then (100, 0) else (0, 0)

/-- Synthetic batch of four events with distinct ids. -/
def testBatch : List Event :=
  [{ defaultEvent with id := "e1" }, { defaultEvent with id := "e2" },
   { defaultEvent with id := "e3" }, { defaultEvent with id := "e4" }]

/-- Concrete evaluation of the trending engine on the synthetic batch: the
scores are 0, 0, 0, 100, the mean is 25 and the threshold 37.5, so the fourth
event is flagged trending and the first is not. -/
theorem markTrendingEvents_testBatch_eval :
    ((markTrendingEvents testStats testBatch).getD 3 defaultEvent).isTrending
        = some true ∧
      ((markTrendingEvents testStats testBatch).getD 0 defaultEvent).isTrending
        = some false := by
  constructor <;>
    · rw [List.getD_eq_getElem?_getD, markTrendingEvents_getElem?]
      simp [testBatch, testStats, calculateTrendingScore, defaultEvent]
      norm_num

/-- Witness for C2 at the synthetic four-event batch, index 3. -/
theorem c2_trending_threshold_witness :
    3 < testBatch.length ∧
    ((∀ v f : ℤ, calculateTrendingScore v f = f * 10 + v) ∧
     (((markTrendingEvents testStats testBatch).getD 3 defaultEvent).isTrending
         = some true ↔
       ((calculateTrendingScore
           (testStats ((testBatch.getD 3 defaultEvent).id)).1
           (testStats ((testBatch.getD 3 defaultEvent).id)).2 : ℤ) : ℚ) >
         1.5 * (((testBatch.map fun e =>
             calculateTrendingScore (testStats e.id).1
               (testStats e.id).2).sum : ℚ)
           / (testBatch.length : ℚ)))) :=
  ⟨by decide, c2_trending_threshold testStats testBatch 3 (by decide)⟩

/-! ### Parking heuristic -/

/-- getParkingInfo: canned parking information keyed by category.  The source
switch lists all five categories (food and bars share an arm), so its default
arm is unreachable. -/
def getParkingInfo : Category → ParkingInfo
  | .sports =>
      { available := true, cost := some "$20-40",
        locations := some ["Stadium parking", "Street parking nearby"] }
  | .entertainment =>
      { available := true, cost := some "$10-25",
        locations := some ["Venue parking", "Public lots"] }
  | .food =>
      { available := true, cost := some "Free-$15",
        locations := some ["Street parking", "Nearby lots"] }
  | .bars =>
      { available := true, cost := some "Free-$15",
        locations := some ["Street parking", "Nearby lots"] }
  | .arts =>
      { available := true, cost := some "$5-15",
        locations := some ["Museum parking", "Street parking"] }

/-! ### Nearby transit -/

/-- A fixed transit station of the hardcoded list inside getNearestTransit. -/
structure MetroStation where
  name : String
  lat : ℝ
  lng : ℝ
  type : TransitType

/-- The hardcoded metroStations list. -/
noncomputable def metroStations : List MetroStation :=
  [{ name := "Union Station", lat := 34.0560, lng := -118.2349, type := .metro },
   { name := "Hollywood/Vine", lat := 34.1016, lng := -118.3267, type := .metro },
   { name := "7th St/Metro Center", lat := 34.0485, lng := -118.2587,
     type := .metro },
   { name := "Pershing Square", lat := 34.0489, lng := -118.2513,
     type := .metro },
   { name := "Civic Center", lat := 34.0570, lng := -118.2446, type := .metro }]

open Real in
/-- JS Math.atan2 with the standard quadrant case split; NaN and signed-zero
double behavior is out of scope.  In getDistanceInMiles both arguments are
square roots, hence nonnegative, so only the first and last cases can arise
there. -/
noncomputable def atan2 (y x : ℝ) : ℝ :=
  if 0 < x then arctan (y / x)
  else if x < 0 then
    if 0 ≤ y then arctan (y / x) + π else arctan (y / x) - π
  else
    if 0 < y then π / 2 else if y < 0 then -(π / 2) else 0

/-- getDistanceInMiles: haversine great-circle distance with Earth radius
R = 3959 miles. -/
noncomputable def getDistanceInMiles (lat1 lng1 lat2 lng2 : ℝ) : ℝ :=
  let R : ℝ := 3959
  let dLat := (lat2 - lat1) * Real.pi / 180
  let dLng := (lng2 - lng1) * Real.pi / 180
  let a := Real.sin (dLat / 2) * Real.sin (dLat / 2) +
    Real.cos (lat1 * Real.pi / 180) * Real.cos (lat2 * Real.pi / 180) *
      Real.sin (dLng / 2) * Real.sin (dLng / 2)
  let c := 2 * atan2 (Real.sqrt a) (Real.sqrt (1 - a))
  R * c

/-- Rendering of (distance * 5280).toFixed(0) feet: JS toFixed with 0 digits
is embedded as rounding to the nearest integer. -/
noncomputable def formatFeet (distance : ℝ) : String :=
  toString (round (distance * 5280)) ++ " ft"

/-- Rendering of distance.toFixed(1) miles: JS toFixed with 1 digit is
embedded as rounding distance * 10 to the nearest integer and printing one
decimal place. -/
noncomputable def formatMiles (distance : ℝ) : String :=
  toString (round (distance * 10) / 10) ++ "." ++
    toString (round (distance * 10) % 10) ++ " mi"

/-- The per-station record built inside getNearestTransit: the computed
distance is kept both as the display string (feet below one mile, otherwise
miles with one decimal) and as the number distanceNum. -/
noncomputable def transitEntryFor (latitude longitude : ℝ)
    (station : MetroStation) : TransitEntry :=
  let distance := getDistanceInMiles latitude longitude station.lat station.lng
  { type := station.type
    station := station.name
    distance :=
      if distance < 1 then formatFeet distance else formatMiles distance
    distanceNum := distance }

/-- getNearestTransit: annotate the fixed stations with their distance to the
event coordinate, keep those strictly within 2 miles, sort ascending by
distance (the JS stable comparator sort is embedded as mergeSort) and return
the closest 2. -/
noncomputable def getNearestTransit (latitude longitude : ℝ) :
    List TransitEntry :=
  let withDistance := metroStations.map (transitEntryFor latitude longitude)
  ((withDistance.filter fun s => decide (s.distanceNum < 2)).mergeSort
      fun a b => decide (a.distanceNum ≤ b.distanceNum)).take 2

/-- C4: the nearby-transit lookup returns at most two entries, sorted
ascending by distance, each one a station of the fixed list strictly within
2 miles of the coordinate whose display string is whole feet below one mile
and one-decimal miles otherwise; when no station is within 2 miles (for
instance when every station is 3 miles away) the result is empty. -/
theorem c4_transit_within_radius (latitude longitude : ℝ) :
    (getNearestTransit latitude longitude).length ≤ 2 ∧
    (getNearestTransit latitude longitude).Pairwise
      (fun a b => a.distanceNum ≤ b.distanceNum) ∧
    (∀ e ∈ getNearestTransit latitude longitude, ∃ s ∈ metroStations,
      e = transitEntryFor latitude longitude s ∧
      e.distanceNum = getDistanceInMiles latitude longitude s.lat s.lng ∧
      e.distanceNum < 2 ∧
      e.distance = if e.distanceNum < 1 then formatFeet e.distanceNum
        else formatMiles e.distanceNum) ∧
    ((∀ s ∈ metroStations,
        ¬ getDistanceInMiles latitude longitude s.lat s.lng < 2) →
      getNearestTransit latitude longitude = []) := by
  have htrans : ∀ a b c : TransitEntry,
      decide (a.distanceNum ≤ b.distanceNum) = true →
      decide (b.distanceNum ≤ c.distanceNum) = true →
      decide (a.distanceNum ≤ c.distanceNum) = true := by
    intro a b c hab hbc
    simp only [decide_eq_true_eq] at hab hbc ⊢
    exact le_trans hab hbc
  have htotal : ∀ a b : TransitEntry,
      (decide (a.distanceNum ≤ b.distanceNum) ||
        decide (b.distanceNum ≤ a.distanceNum)) = true := by
    intro a b
    simp only [Bool.or_eq_true, decide_eq_true_eq]
    exact le_total _ _
  refine ⟨?_, ?_, ?_, ?_⟩
  · simp only [getNearestTransit]
    rw [List.length_take]
    exact min_le_left _ _
  · simp only [getNearestTransit]
    refine List.Pairwise.imp (fun h => decide_eq_true_eq.mp h) ?_
    exact List.Pairwise.sublist (List.take_sublist _ _)
      (List.sorted_mergeSort htrans htotal _)
  · intro e he
    simp only [getNearestTransit] at he
    have he2 := (List.take_sublist _ _).subset he
    have he3 := List.mem_mergeSort.mp he2
    rcases List.mem_filter.mp he3 with ⟨he4, hlt⟩
    rcases List.mem_map.mp he4 with ⟨s, hs, hes⟩
    refine ⟨s, hs, hes.symm, ?_, ?_, ?_⟩
    · rw [← hes]; rfl
    · exact decide_eq_true_eq.mp hlt
    · rw [← hes]; rfl
  · intro h
    have hfil : (metroStations.map (transitEntryFor latitude longitude)).filter
        (fun s => decide (s.distanceNum < 2)) = [] := by
      refine List.filter_eq_nil_iff.mpr ?_
      intro a ha
      rcases List.mem_map.mp ha with ⟨s, hs, hsa⟩
      simp only [decide_eq_true_eq]
      rw [← hsa]
      exact h s hs
    simp only [getNearestTransit, hfil, List.mergeSort_nil, List.take_nil]

/-- Witness for C4 at the coordinate (0, 0). -/
theorem c4_transit_within_radius_witness :
    (getNearestTransit 0 0).length ≤ 2 ∧
    (getNearestTransit 0 0).Pairwise
      (fun a b => a.distanceNum ≤ b.distanceNum) ∧
    (∀ e ∈ getNearestTransit 0 0, ∃ s ∈ metroStations,
      e = transitEntryFor 0 0 s ∧
      e.distanceNum = getDistanceInMiles 0 0 s.lat s.lng ∧
      e.distanceNum < 2 ∧
      e.distance = if e.distanceNum < 1 then formatFeet e.distanceNum
        else formatMiles e.distanceNum) ∧
    ((∀ s ∈ metroStations, ¬ getDistanceInMiles 0 0 s.lat s.lng < 2) →
      getNearestTransit 0 0 = []) :=
  c4_transit_within_radius 0 0

/-! ### Enrichment engine composition -/

/-- enhanceEvents: annotate every event with parking info (by category) and
nearby transit (by coordinates). -/
noncomputable def enhanceEvents (events : List Event) : List Event :=
  events.map fun event =>
    { event with
      parkingInfo := some (getParkingInfo event.category)
      nearbyTransit :=
        some (getNearestTransit event.latitude event.longitude) }

lemma enhanceEvents_getElem? (events : List Event) (i : ℕ) :
    (enhanceEvents events)[i]? = events[i]?.map fun event =>
      { event with
        parkingInfo := some (getParkingInfo event.category)
        nearbyTransit :=
          some (getNearestTransit event.latitude event.longitude) } := by
  simp [enhanceEvents, List.getElem?_map]

/-- The eleven non-derived fields of an Event, bundled as one tuple. -/
def plainFields (e : Event) :=
  (e.id, e.title, e.description, e.category, e.date, e.time, e.address,
    e.latitude, e.longitude, e.imageUrl, e.ticketUrl)

lemma pipeline_plainFields (stats : String → ℤ × ℤ) (events : List Event)
    (i : ℕ) :
    ((markTrendingEvents stats (enhanceEvents events))[i]?).map plainFields =
      (events[i]?).map plainFields := by
  rw [markTrendingEvents_getElem?, enhanceEvents_getElem?]
  cases events[i]? <;> rfl

/-- C9: the enrichment engine (enhanceEvents followed by markTrendingEvents)
preserves length and order and writes only the derived fields; the id, title,
description, category, date, time, address, latitude, longitude, imageUrl and
ticketUrl of every event are unchanged. -/
theorem c9_enrichment_frame (stats : String → ℤ × ℤ) (events : List Event)
    (i : ℕ) (hi : i < events.length) :
    (markTrendingEvents stats (enhanceEvents events)).length
      = events.length ∧
    ((markTrendingEvents stats (enhanceEvents events)).getD i
        defaultEvent).id = (events.getD i defaultEvent).id ∧
    ((markTrendingEvents stats (enhanceEvents events)).getD i
        defaultEvent).title = (events.getD i defaultEvent).title ∧
    ((markTrendingEvents stats (enhanceEvents events)).getD i
        defaultEvent).description
      = (events.getD i defaultEvent).description ∧
    ((markTrendingEvents stats (enhanceEvents events)).getD i
        defaultEvent).category = (events.getD i defaultEvent).category ∧
    ((markTrendingEvents stats (enhanceEvents events)).getD i
        defaultEvent).date = (events.getD i defaultEvent).date ∧
    ((markTrendingEvents stats (enhanceEvents events)).getD i
        defaultEvent).time = (events.getD i defaultEvent).time ∧
    ((markTrendingEvents stats (enhanceEvents events)).getD i
        defaultEvent).address = (events.getD i defaultEvent).address ∧
    ((markTrendingEvents stats (enhanceEvents events)).getD i
        defaultEvent).latitude = (events.getD i defaultEvent).latitude ∧
    ((markTrendingEvents stats (enhanceEvents events)).getD i
        defaultEvent).longitude = (events.getD i defaultEvent).longitude ∧
    ((markTrendingEvents stats (enhanceEvents events)).getD i
        defaultEvent).imageUrl = (events.getD i defaultEvent).imageUrl ∧
    ((markTrendingEvents stats (enhanceEvents events)).getD i
        defaultEvent).ticketUrl = (events.getD i defaultEvent).ticketUrl := by
  have hlen : (markTrendingEvents stats (enhanceEvents events)).length
      = events.length := by
    simp [markTrendingEvents, enhanceEvents, List.enum_length]
  refine ⟨hlen, ?_⟩
  have h := pipeline_plainFields stats events i
  rw [List.getElem?_eq_getElem hi] at h
  rcases Option.map_eq_some'.mp h with ⟨e, he, htup⟩
  have hgd : (markTrendingEvents stats (enhanceEvents events)).getD i
      defaultEvent = e := by
    rw [List.getD_eq_getElem?_getD, he]; rfl
  have hgd2 : events.getD i defaultEvent = events[i] := by
    rw [List.getD_eq_getElem?_getD, List.getElem?_eq_getElem hi]; rfl
  rw [hgd, hgd2]
  simpa [plainFields, Prod.mk.injEq] using htup

/-- Witness for C9 on the synthetic batch at index 0. -/
theorem c9_enrichment_frame_witness :
    0 < testBatch.length ∧
    ((markTrendingEvents testStats (enhanceEvents testBatch)).getD 0
        defaultEvent).id = (testBatch.getD 0 defaultEvent).id ∧
    ((markTrendingEvents testStats (enhanceEvents testBatch)).getD 0
        defaultEvent).latitude = (testBatch.getD 0 defaultEvent).latitude :=
  ⟨by decide,
    ((c9_enrichment_frame testStats testBatch 0 (by decide)).2).1,
    (((((((((c9_enrichment_frame testStats testBatch 0
      (by decide)).2).2).2).2).2).2).2).2).1⟩

/-! ### Mock dataset and the GET /api/events orchestration -/

/-- MOCK_EVENTS: the built-in five-event mock dataset of the pipeline
variant. -/
noncomputable def MOCK_EVENTS : List Event :=
  [{ id := "mock-1",
     title := "Hollywood Bowl Summer Concert",
     description :=
       "Live music under the stars at the iconic Hollywood Bowl amphitheater.",
     category := .entertainment,
     date := "Dec 15, 2025",
     time := "7:30 PM",
     address := "2301 N Highland Ave, Los Angeles, CA 90068",
     latitude := 34.1122,
     longitude := -118.3391,
     imageUrl := some
       "https://images.unsplash.com/photo-1501281668745-f7f57925c3b4?w=800",
     ticketUrl := some "https://www.hollywoodbowl.com" },
   { id := "mock-2",
     title := "Grand Central Market Food Tour",
     description :=
       "Explore diverse cuisines from around the world at this historic marketplace.",
     category := .food,
     date := "Dec 12, 2025",
     time := "11:00 AM",
     address := "317 S Broadway, Los Angeles, CA 90013",
     latitude := 34.0509,
     longitude := -118.2489,
     imageUrl := some
       "https://images.unsplash.com/photo-1555939594-58d7cb561ad1?w=800" },
   { id := "mock-3",
     title := "Lakers vs Celtics",
     description :=
       "Watch the Lakers take on the Celtics in this epic NBA rivalry game.",
     category := .sports,
     date := "Dec 20, 2025",
     time := "7:00 PM",
     address := "1111 S Figueroa St, Los Angeles, CA 90015",
     latitude := 34.043,
     longitude := -118.2673,
     imageUrl := some
       "https://images.unsplash.com/photo-1546519638-68e109498ffc?w=800" },
   { id := "mock-4",
     title := "LACMA Art Exhibition",
     description :=
       "Explore contemporary art installations at the Los Angeles County Museum of Art.",
     category := .arts,
     date := "Dec 10, 2025",
     time := "10:00 AM",
     address := "5905 Wilshire Blvd, Los Angeles, CA 90036",
     latitude := 34.0639,
     longitude := -118.3592,
     imageUrl := some
       "https://images.unsplash.com/photo-1536924940846-227afb31e2a5?w=800" },
   { id := "mock-5",
     title := "Rooftop Bar at The Standard",
     description :=
       "Enjoy craft cocktails and stunning city views at this iconic rooftop bar.",
     category := .bars,
     date := "Ongoing",
     time := "8:00 PM",
     address := "550 S Flower St, Los Angeles, CA 90071",
     latitude := 34.0487,
     longitude := -118.2573,
     imageUrl := some
       "https://images.unsplash.com/photo-1514933651103-005eec06c04b?w=800" }]

/-- Body of the GET /api/events handler of the pipeline variant: concatenate
the two adapter results, deduplicate, enrich, mark trending, and substitute
the enriched mock dataset when the result is empty.  The adapter results are
parameters (the fetches are joined before this code runs) and the statistics
map is the read-only lookup shared with markTrendingEvents. -/
noncomputable def eventsEndpoint (stats : String → ℤ × ℤ)
    (ticketmasterEvents yelpEvents : List Event) : List Event :=
  let allEvents := ticketmasterEvents ++ yelpEvents
  let uniqueEvents := deduplicateEvents allEvents
  let enhancedEvents := enhanceEvents uniqueEvents
  let eventsWithTrending := markTrendingEvents stats enhancedEvents
  if eventsWithTrending.length > 0 then eventsWithTrending
  else markTrendingEvents stats (enhanceEvents MOCK_EVENTS)

lemma enrich_length (stats : String → ℤ × ℤ) (l : List Event) :
    (markTrendingEvents stats (enhanceEvents l)).length = l.length := by
  simp [markTrendingEvents, enhanceEvents, List.enum_length]

/-- C3: when both provider adapters contribute no events, the endpoint
returns exactly the mock dataset passed through the enrichment engine, which
is non-empty; and for every pair of adapter results the endpoint returns a
non-empty list. -/
theorem c3_mock_fallback (stats : String → ℤ × ℤ) :
    eventsEndpoint stats [] [] =
      markTrendingEvents stats (enhanceEvents MOCK_EVENTS) ∧
    eventsEndpoint stats [] [] ≠ [] ∧
    ∀ ticketmasterEvents yelpEvents : List Event,
      eventsEndpoint stats ticketmasterEvents yelpEvents ≠ [] := by
  have hmock : (markTrendingEvents stats (enhanceEvents MOCK_EVENTS)).length
      = 5 := by
    rw [enrich_length]
    simp [MOCK_EVENTS]
  have hall : ∀ tm yelp : List Event, eventsEndpoint stats tm yelp ≠ [] := by
    intro tm yelp
    by_cases hc : (markTrendingEvents stats (enhanceEvents
        (deduplicateEvents (tm ++ yelp)))).length > 0
    · have : eventsEndpoint stats tm yelp = markTrendingEvents stats
          (enhanceEvents (deduplicateEvents (tm ++ yelp))) := by
        simp only [eventsEndpoint, if_pos hc]
      rw [this]
      exact List.length_pos.mp hc
    · have : eventsEndpoint stats tm yelp = markTrendingEvents stats
          (enhanceEvents MOCK_EVENTS) := by
        simp only [eventsEndpoint, if_neg hc]
      rw [this]
      exact List.length_pos.mp (by rw [hmock]; norm_num)
  have hempty : eventsEndpoint stats [] [] =
      markTrendingEvents stats (enhanceEvents MOCK_EVENTS) := by
    have h0 : markTrendingEvents stats (enhanceEvents
        (deduplicateEvents (([] : List Event) ++ []))) = [] := by
      simp [deduplicateEvents, dedupGo, enhanceEvents, markTrendingEvents]
    simp only [eventsEndpoint, h0, List.length_nil, gt_iff_lt,
      lt_self_iff_false, if_false]
  exact ⟨hempty, hempty ▸ hall [] [], hall⟩

/-- Witness for C3 at the all-zero statistics lookup. -/
theorem c3_mock_fallback_witness :
    eventsEndpoint (fun _ => (0, 0)) [] [] =
      markTrendingEvents (fun _ => (0, 0)) (enhanceEvents MOCK_EVENTS) ∧
    eventsEndpoint (fun _ => (0, 0)) [] [] ≠ [] ∧
    ∀ ticketmasterEvents yelpEvents : List Event,
      eventsEndpoint (fun _ => (0, 0)) ticketmasterEvents yelpEvents ≠ [] :=
  c3_mock_fallback (fun _ => (0, 0))

/-! ### Category mapper -/

/-- One entry of the Ticketmaster classifications array; segment, genre and
subGenre each stand for the optional name string reached by the optional
chain (classifications[0]?.segment?.name and likewise for genre and
subGenre). -/
structure Classification where
  segment : Option String := none
  genre : Option String := none
  subGenre : Option String := none
deriving DecidableEq

/-- The lowercased segment name of the first classification, empty when any
link of the optional chain is absent: the embedding of
classifications[0]?.segment?.name?.toLowerCase() || "". -/
def tmSegmentOf (classifications : Option (List Classification)) : String :=
  (((classifications.getD []).head?.bind (fun c => c.segment)).map
    String.toLower).getD ""

/-- The lowercased genre name of the first classification, empty when
absent. -/
def tmGenreOf (classifications : Option (List Classification)) : String :=
  (((classifications.getD []).head?.bind (fun c => c.genre)).map
    String.toLower).getD ""

/-- The lowercased subGenre name of the first classification, empty when
absent. -/
def tmSubGenreOf (classifications : Option (List Classification)) : String :=
  (((classifications.getD []).head?.bind (fun c => c.subGenre)).map
    String.toLower).getD ""

/-- Loop of the substring test: does the pattern start at some position of
the text. -/
def containsAux (pat : List Char) : List Char → Bool
  | [] => pat.isEmpty
  | c :: rest => pat.isPrefixOf (c :: rest) || containsAux pat rest

/-- Embedding of the JS String.prototype.includes substring test used by the
category mappers. -/
def strIncludes (s pattern : String) : Bool :=
  containsAux pattern.data s.data

/-- mapTicketmasterCategory of the pipeline variant: a null or empty
classifications array maps to entertainment; sports and arts signals are
checked on the first classification; everything else defaults to
entertainment. -/
def mapTicketmasterCategory
    (classifications : Option (List Classification)) : Category :=
  if classifications.getD [] = [] then .entertainment
  else
    let segment := tmSegmentOf classifications
    let genre := tmGenreOf classifications
    if segment == "sports" || strIncludes genre "sport" then .sports
    else if segment == "arts & theatre" || strIncludes genre "art"
        || strIncludes genre "theatre" then .arts
    else .entertainment

namespace Legacy

/-- mapTicketmasterCategory of the legacy route variant: same sports and arts
checks, then food and culinary genre signals, then club, nightlife and bar
signals on both genre and subGenre; default entertainment. -/
def mapTicketmasterCategory
    (classifications : Option (List Classification)) : Category :=
  if classifications.getD [] = [] then .entertainment
  else
    let segment := tmSegmentOf classifications
    let genre := tmGenreOf classifications
    let subGenre := tmSubGenreOf classifications
    if segment == "sports" || strIncludes genre "sport" then .sports
    else if segment == "arts & theatre" || strIncludes genre "art"
        || strIncludes genre "theatre" then .arts
    else if strIncludes genre "food" || strIncludes genre "culinary"
      then .food
    else if strIncludes genre "club" || strIncludes genre "nightlife"
        || strIncludes genre "bar" || strIncludes subGenre "club"
        || strIncludes subGenre "nightlife"
        || strIncludes subGenre "bar" then .bars
    else .entertainment

end Legacy

/-- C5: both category mappers are total functions into the fixed five-element
category enum, a null or empty classifications input maps to entertainment,
and whenever no sport or art signal (nor, in the extended legacy variant,
food or bar signal) matches the input, the result is the default
entertainment. -/
theorem c5_category_mapper_total
    (classifications : Option (List Classification))
    (h : (tmSegmentOf classifications == "sports") = false ∧
      (strIncludes (tmGenreOf classifications) "sport") = false ∧
      (tmSegmentOf classifications == "arts & theatre") = false ∧
      (strIncludes (tmGenreOf classifications) "art") = false ∧
      (strIncludes (tmGenreOf classifications) "theatre") = false ∧
      (strIncludes (tmGenreOf classifications) "food") = false ∧
      (strIncludes (tmGenreOf classifications) "culinary") = false ∧
      (strIncludes (tmGenreOf classifications) "club") = false ∧
      (strIncludes (tmGenreOf classifications) "nightlife") = false ∧
      (strIncludes (tmGenreOf classifications) "bar") = false ∧
      (strIncludes (tmSubGenreOf classifications) "club") = false ∧
      (strIncludes (tmSubGenreOf classifications) "nightlife") = false ∧
      (strIncludes (tmSubGenreOf classifications) "bar") = false) :
    mapTicketmasterCategory classifications = .entertainment ∧
    Legacy.mapTicketmasterCategory classifications = .entertainment ∧
    (∀ cls : Option (List Classification),
      mapTicketmasterCategory cls ∈ categoryValues ∧
      Legacy.mapTicketmasterCategory cls ∈ categoryValues) ∧
    mapTicketmasterCategory none = .entertainment ∧
    mapTicketmasterCategory (some []) = .entertainment ∧
    Legacy.mapTicketmasterCategory none = .entertainment ∧
    Legacy.mapTicketmasterCategory (some []) = .entertainment := by
  obtain ⟨h1, h2, h3, h4, h5, h6, h7, h8, h9, h10, h11, h12, h13⟩ := h
  refine ⟨?_, ?_, ?_, rfl, rfl, rfl, rfl⟩
  · unfold mapTicketmasterCategory
    by_cases he : classifications.getD [] = []
    · simp [he]
    · simp [he, h1, h2, h3, h4, h5]
  · unfold Legacy.mapTicketmasterCategory
    by_cases he : classifications.getD [] = []
    · simp [he]
    · simp [he, h1, h2, h3, h4, h5, h6, h7, h8, h9, h10, h11, h12, h13]
  · intro cls
    constructor
    · simp only [mapTicketmasterCategory]
      split_ifs <;> simp [categoryValues]
    · simp only [Legacy.mapTicketmasterCategory]
      split_ifs <;> simp [categoryValues]

/-- Witness for C5 at the null classifications input. -/
theorem c5_category_mapper_total_witness :
    ((tmSegmentOf none == "sports") = false ∧
      (strIncludes (tmGenreOf none) "sport") = false ∧
      (tmSegmentOf none == "arts & theatre") = false ∧
      (strIncludes (tmGenreOf none) "art") = false ∧
      (strIncludes (tmGenreOf none) "theatre") = false ∧
      (strIncludes (tmGenreOf none) "food") = false ∧
      (strIncludes (tmGenreOf none) "culinary") = false ∧
      (strIncludes (tmGenreOf none) "club") = false ∧
      (strIncludes (tmGenreOf none) "nightlife") = false ∧
      (strIncludes (tmGenreOf none) "bar") = false ∧
      (strIncludes (tmSubGenreOf none) "club") = false ∧
      (strIncludes (tmSubGenreOf none) "nightlife") = false ∧
      (strIncludes (tmSubGenreOf none) "bar") = false) ∧
    (mapTicketmasterCategory none = .entertainment ∧
      Legacy.mapTicketmasterCategory none = .entertainment ∧
      (∀ cls : Option (List Classification),
        mapTicketmasterCategory cls ∈ categoryValues ∧
        Legacy.mapTicketmasterCategory cls ∈ categoryValues) ∧
      mapTicketmasterCategory none = .entertainment ∧
      mapTicketmasterCategory (some []) = .entertainment ∧
      Legacy.mapTicketmasterCategory none = .entertainment ∧
      Legacy.mapTicketmasterCategory (some []) = .entertainment) :=
  ⟨by decide, c5_category_mapper_total none (by decide)⟩

/-! ### Provider adapters

The adapters issue HTTP calls and map provider payloads into Events.  The
network interaction is embedded as an explicit response value; the platform
functions formatDate (JS Date parsing plus locale rendering) and parseFloat
(JS Number parsing) are function parameters. -/

/-- Embedding of the JS falsy-string chain a || b: an absent or empty left
operand falls through to the right operand. -/
def orElseStr (a : Option String) (b : String) : String :=
  match a with
  | some s => if s = "" then b else s
  | none => b

/-- Embedding of JS parseInt with radix 10, restricted to the clock strings
the route handlers feed it: the leading decimal digits, or none when there
are none (parseInt returns NaN there); sign and whitespace handling does not
arise for these inputs. -/
def jsParseInt (s : String) : Option ℤ :=
  (s.takeWhile Char.isDigit).toNat?.map Int.ofNat

/-- formatTime: convert an HH:MM string to a 12-hour clock display.  A NaN
hour (no leading digits) compares false against 12 and renders as 12 through
NaN % 12 || 12; a missing minutes component renders as the string undefined,
as a JS template literal renders it. -/
def formatTime (timeStr : String) : String :=
  if timeStr = "" then "TBA"
  else
    let parts := timeStr.splitOn ":"
    let hours := parts.getD 0 ""
    let minutes := parts.getD 1 "undefined"
    match jsParseInt hours with
    | none => "12:" ++ minutes ++ " AM"
    | some h =>
        let ampm := if h ≥ 12 then "PM" else "AM"
        let hour12 := if h % 12 = 0 then (12 : ℤ) else h % 12
        toString hour12 ++ ":" ++ minutes ++ " " ++ ampm

/-- One entry of the Ticketmaster images array. -/
structure TMImage where
  url : String
  width : Option ℤ := none
  height : Option ℤ := none
  ratio : Option String := none
deriving DecidableEq

/-- selectBestImage: sort the images by pixel area descending (stable sort,
missing dimensions count as 0), prefer a width-640-plus 16:9 image, then any
width-400-plus image, then the largest; none when there are no images. -/
def selectBestImage (images : Option (List TMImage)) : Option String :=
  match images with
  | none => none
  | some imgs =>
    if imgs = [] then none
    else
      let sorted := imgs.mergeSort fun a b =>
        decide (b.width.getD 0 * b.height.getD 0 ≤
          a.width.getD 0 * a.height.getD 0)
      let preferred := sorted.find? fun img =>
        (img.width.map fun w => decide (w ≥ 640)).getD false &&
          img.ratio == some "16_9"
      match preferred with
      | some img => some img.url
      | none =>
        let large := sorted.find? fun img =>
          (img.width.map fun w => decide (w ≥ 400)).getD false
        match large with
        | some img => some img.url
        | none => sorted.head?.map fun img => img.url

/-- The location object of a Ticketmaster venue; latitude and longitude are
the strings of the payload. -/
structure TMLocation where
  latitude : Option String := none
  longitude : Option String := none

/-- A Ticketmaster venue, flattening the name chains the mapper reads:
name, city.name, state.stateCode and location. -/
structure TMVenue where
  name : Option String := none
  city : Option String := none
  state : Option String := none
  location : Option TMLocation := none

/-- One raw Ticketmaster event with the payload fields the mapper reads;
_embedded.venues, dates.start.localDate and dates.start.localTime are
flattened to venues, localDate and localTime. -/
structure TMRawEvent where
  id : String
  name : String
  info : Option String := none
  pleaseNote : Option String := none
  classifications : Option (List Classification) := none
  localDate : Option String := none
  localTime : Option String := none
  venues : Option (List TMVenue) := none
  images : Option (List TMImage) := none
  url : Option String := none

/-- The per-item mapper inside fetchTicketmasterEvents of the pipeline
variant; the id is namespaced as tm- plus the provider-native id. -/
noncomputable def mapTicketmasterEvent (parseFloat : String → ℝ)
    (formatDate : String → String) (ev : TMRawEvent) : Event :=
  let venue := ev.venues.bind List.head?
  let location := venue.bind fun v => v.location
  { id := "tm-" ++ ev.id
    title := ev.name
    description := orElseStr ev.info (orElseStr ev.pleaseNote
      (ev.name ++ " at " ++ orElseStr (venue.bind fun v => v.name) "TBA"))
    category := mapTicketmasterCategory ev.classifications
    date := match ev.localDate with
      | some d => if d = "" then "TBA" else formatDate d
      | none => "TBA"
    time := match ev.localTime with
      | some t => if t = "" then "TBA" else formatTime t
      | none => "TBA"
    address := match venue with
      | some v => v.name.getD "undefined" ++ ", " ++ v.city.getD "" ++
          ", " ++ v.state.getD ""
      | none => "Location TBA"
    latitude := match location.bind fun loc => loc.latitude with
      | some s => if s = "" then 34.0522 else parseFloat s
      | none => 34.0522
    longitude := match location.bind fun loc => loc.longitude with
      | some s => if s = "" then -118.2437 else parseFloat s
      | none => -118.2437
    imageUrl := selectBestImage ev.images
    ticketUrl := ev.url }

/-- Outcome of the Ticketmaster HTTP call as seen by the adapter: a thrown
error or non-OK response, an OK response without _embedded.events, or the
raw events array. -/
inductive TMResponse
  | httpError
  | noEvents
  | events (evs : List TMRawEvent)

/-- fetchTicketmasterEvents of the pipeline variant: a missing API key (and
every failure outcome) yields the empty list immediately; a successful
response maps every raw event through mapTicketmasterEvent. -/
noncomputable def fetchTicketmasterEvents (parseFloat : String → ℝ)
    (formatDate : String → String) (apiKey : Option String)
    (response : TMResponse) : List Event :=
  match apiKey with
  | none => []
  | some _ =>
    match response with
    | .httpError => []
    | .noEvents => []
    | .events evs => evs.map (mapTicketmasterEvent parseFloat formatDate)

/-- One category tag of a Yelp business. -/
structure YelpCategory where
  title : String

/-- One raw Yelp business with the payload fields the mapper reads;
location.display_address and coordinates are flattened. -/
structure YelpBusiness where
  id : String
  name : String
  categories : Option (List YelpCategory) := none
  displayAddress : List String := []
  latitude : ℝ
  longitude : ℝ
  imageUrl : Option String := none
  url : Option String := none

/-- The per-business mapper inside fetchYelpEvents; the id is namespaced as
yelp- plus the provider-native business id, and eventCategory is the fixed
category of the search that produced the business. -/
def mapYelpBusiness (eventCategory : Category)
    (business : YelpBusiness) : Event :=
  { id := "yelp-" ++ business.id
    title := business.name
    description := orElseStr (business.categories.map fun cs =>
      String.intercalate ", " (cs.map fun c => c.title)) "Great spot in LA"
    category := eventCategory
    date := "Ongoing"
    time := "See hours"
    address := String.intercalate ", " business.displayAddress
    latitude := business.latitude
    longitude := business.longitude
    imageUrl := business.imageUrl
    ticketUrl := business.url }

/-- Outcome of one Yelp search call. -/
inductive YelpResponse
  | httpError
  | noBusinesses
  | businesses (bs : List YelpBusiness)

/-- fetchYelpEvents of the pipeline variant: a missing API key yields the
empty list immediately; otherwise the two fixed searches (restaurants mapped
to food, bars and nightlife mapped to bars) run in order, each contributing
its mapped businesses, and a failed or empty search contributes nothing. -/
def fetchYelpEvents (apiKey : Option String)
    (restaurantsResponse barsResponse : YelpResponse) : List Event :=
  match apiKey with
  | none => []
  | some _ =>
    let run := fun (response : YelpResponse) (eventCategory : Category) =>
      match response with
      | .httpError => []
      | .noBusinesses => []
      | .businesses bs => bs.map (mapYelpBusiness eventCategory)
    run restaurantsResponse .food ++ run barsResponse .bars

namespace Legacy

/-! ### Legacy route variant

The older route handler bundled in the repository: its Event record has no
derived enrichment fields, its mock dataset has fifteen events with plain
numeric string ids, its Ticketmaster mapper keeps the provider-native id
unprefixed, and its adapter substitutes the mock dataset whenever the API
key is missing or the call fails or returns nothing. -/

/-- The Event record of the legacy route variant. -/
structure Event where
  id : String
  title : String
  description : String
  category : Category
  date : String
  time : String
  address : String
  latitude : ℝ
  longitude : ℝ
  imageUrl : Option String := none
  ticketUrl : Option String := none

/-- MOCK_EVENTS of the legacy variant. -/
noncomputable def MOCK_EVENTS : List Event :=
  [{ id := "1",
     title := "Hollywood Bowl Concert",
     description :=
       "Live music under the stars at the iconic Hollywood Bowl amphitheater.",
     category := .entertainment,
     date := "Dec 15, 2025",
     time := "7:30 PM",
     address := "2301 N Highland Ave, Los Angeles, CA 90068",
     latitude := 34.1122,
     longitude := -118.3391,
     ticketUrl := some "https://www.hollywoodbowl.com/tickets" },
   { id := "2",
     title := "Grand Central Market Food Tour",
     description :=
       "Explore diverse cuisines from around the world at this historic marketplace.",
     category := .food,
     date := "Dec 12, 2025",
     time := "11:00 AM",
     address := "317 S Broadway, Los Angeles, CA 90013",
     latitude := 34.0509,
     longitude := -118.2489,
     ticketUrl := some "https://www.grandcentralmarket.com/tours" },
   { id := "3",
     title := "Lakers vs Celtics",
     description :=
       "Watch the Lakers take on the Celtics at Crypto.com Arena.",
     category := .sports,
     date := "Dec 20, 2025",
     time := "7:00 PM",
     address := "1111 S Figueroa St, Los Angeles, CA 90015",
     latitude := 34.043,
     longitude := -118.2673,
     ticketUrl := some "https://www.nba.com/lakers/tickets" },
   { id := "4",
     title := "LACMA Art Exhibition",
     description :=
       "Explore contemporary art installations at the Los Angeles County Museum of Art.",
     category := .arts,
     date := "Dec 10, 2025",
     time := "10:00 AM",
     address := "5905 Wilshire Blvd, Los Angeles, CA 90036",
     latitude := 34.0639,
     longitude := -118.3592,
     ticketUrl := some "https://www.lacma.org/visit" },
   { id := "5",
     title := "Santa Monica Pier Festival",
     description :=
       "Annual festival with rides, games, and live entertainment on the pier.",
     category := .entertainment,
     date := "Dec 18, 2025",
     time := "12:00 PM",
     address := "200 Santa Monica Pier, Santa Monica, CA 90401",
     latitude := 34.0097,
     longitude := -118.4977,
     ticketUrl := some "https://www.santamonicapier.org/events" },
   { id := "6",
     title := "Koreatown Food Crawl",
     description :=
       "Sample the best Korean BBQ and street food in LA's Koreatown.",
     category := .food,
     date := "Dec 14, 2025",
     time := "6:00 PM",
     address := "621 S Western Ave, Los Angeles, CA 90005",
     latitude := 34.0615,
     longitude := -118.3095,
     ticketUrl := some "https://www.eventbrite.com/e/koreatown-food-crawl" },
   { id := "7",
     title := "Dodgers Spring Training",
     description := "Watch the Dodgers prepare for the upcoming season.",
     category := .sports,
     date := "Dec 22, 2025",
     time := "1:00 PM",
     address := "1000 Vin Scully Ave, Los Angeles, CA 90012",
     latitude := 34.0739,
     longitude := -118.24,
     ticketUrl := some "https://www.mlb.com/dodgers/tickets" },
   { id := "8",
     title := "Getty Center Gardens Tour",
     description :=
       "Guided tour through the beautiful gardens and architecture of the Getty.",
     category := .arts,
     date := "Dec 11, 2025",
     time := "2:00 PM",
     address := "1200 Getty Center Dr, Los Angeles, CA 90049",
     latitude := 34.0781,
     longitude := -118.4741,
     ticketUrl := some "https://www.getty.edu/visit" },
   { id := "9",
     title := "Sunset Rooftop at The Standard",
     description :=
       "Enjoy craft cocktails and stunning city views at this iconic rooftop bar in Downtown LA.",
     category := .bars,
     date := "Dec 13, 2025",
     time := "8:00 PM",
     address := "550 S Flower St, Los Angeles, CA 90071",
     latitude := 34.0487,
     longitude := -118.2573,
     ticketUrl :=
       some "https://www.standardhotels.com/la/features/rooftop" },
   { id := "10",
     title := "Jazz Night at The Dresden",
     description :=
       "Classic cocktails and live jazz performances at this legendary Los Feliz lounge.",
     category := .bars,
     date := "Dec 16, 2025",
     time := "9:00 PM",
     address := "1760 N Vermont Ave, Los Angeles, CA 90027",
     latitude := 34.1021,
     longitude := -118.2912,
     ticketUrl := some "https://www.thedresden.com/events" },
   { id := "11",
     title := "Wine Tasting at Everson Royce",
     description :=
       "Explore natural wines and small plates at this trendy Arts District wine bar.",
     category := .bars,
     date := "Dec 19, 2025",
     time := "7:00 PM",
     address := "1936 E 7th St, Los Angeles, CA 90021",
     latitude := 34.0328,
     longitude := -118.2281,
     ticketUrl := some "https://www.eversonroyce.com/reservations" },
   { id := "12",
     title := "Speakeasy Night at The Varnish",
     description :=
       "Experience prohibition-era cocktails in this hidden downtown speakeasy behind Cole's.",
     category := .bars,
     date := "Dec 21, 2025",
     time := "10:00 PM",
     address := "118 E 6th St, Los Angeles, CA 90014",
     latitude := 34.0452,
     longitude := -118.2493,
     ticketUrl := some "https://www.213hospitality.com/thevarnish" },
   { id := "13",
     title := "Taco Tuesday at Guisados",
     description :=
       "Authentic braised meat tacos and house-made tortillas at this popular spot.",
     category := .food,
     date := "Dec 17, 2025",
     time := "5:30 PM",
     address := "2100 E Cesar E Chavez Ave, Los Angeles, CA 90033",
     latitude := 34.0481,
     longitude := -118.2137 },
   { id := "14",
     title := "Street Art Walking Tour",
     description :=
       "Guided tour of the best murals and street art in the Arts District.",
     category := .arts,
     date := "Dec 23, 2025",
     time := "11:00 AM",
     address := "Arts District, Los Angeles, CA 90013",
     latitude := 34.0389,
     longitude := -118.2342,
     ticketUrl := some "https://www.laconservancy.org/tours" },
   { id := "15",
     title := "Kings vs Sharks Hockey",
     description := "Catch the LA Kings in action at Crypto.com Arena.",
     category := .sports,
     date := "Dec 24, 2025",
     time := "7:30 PM",
     address := "1111 S Figueroa St, Los Angeles, CA 90015",
     latitude := 34.043,
     longitude := -118.2673,
     ticketUrl := some "https://www.nhl.com/kings/tickets" }]

/-- The per-item mapper inside the legacy fetchTicketmasterEvents: the id is
the provider-native id, with no source namespace tag. -/
noncomputable def mapTicketmasterEvent (parseFloat : String → ℝ)
    (formatDate : String → String) (ev : TMRawEvent) : Event :=
  let venue := ev.venues.bind List.head?
  let location := venue.bind fun v => v.location
  { id := ev.id
    title := ev.name
    description := orElseStr ev.info (orElseStr ev.pleaseNote
      (ev.name ++ " at " ++ orElseStr (venue.bind fun v => v.name) "TBA"))
    category := mapTicketmasterCategory ev.classifications
    date := match ev.localDate with
      | some d => if d = "" then "TBA" else formatDate d
      | none => "TBA"
    time := match ev.localTime with
      | some t => if t = "" then "TBA" else formatTime t
      | none => "TBA"
    address := match venue with
      | some v => v.name.getD "undefined" ++ ", " ++ v.city.getD "" ++
          ", " ++ v.state.getD ""
      | none => "Location TBA"
    latitude := match location.bind fun loc => loc.latitude with
      | some s => if s = "" then 34.0522 else parseFloat s
      | none => 34.0522
    longitude := match location.bind fun loc => loc.longitude with
      | some s => if s = "" then -118.2437 else parseFloat s
      | none => -118.2437
    imageUrl := selectBestImage ev.images
    ticketUrl := ev.url }

/-- fetchTicketmasterEvents of the legacy variant: a missing API key, a
non-OK response, a payload without events and an empty mapped list all fall
back to the built-in MOCK_EVENTS. -/
noncomputable def fetchTicketmasterEvents (parseFloat : String → ℝ)
    (formatDate : String → String) (apiKey : Option String)
    (response : TMResponse) : List Event :=
  match apiKey with
  | none => MOCK_EVENTS
  | some _ =>
    match response with
    | .httpError => MOCK_EVENTS
    | .noEvents => MOCK_EVENTS
    | .events evs =>
      let events := evs.map (mapTicketmasterEvent parseFloat formatDate)
      if events.length > 0 then events else MOCK_EVENTS

end Legacy

/-! ### Claims about the adapters -/

/-- C6 counterexample input: the legacy Ticketmaster adapter with the API key
absent returns the fifteen built-in mock events, not the empty list. -/
theorem c6_counterexample :
    Legacy.fetchTicketmasterEvents (fun _ => 0) (fun s => s) none
        TMResponse.noEvents = Legacy.MOCK_EVENTS ∧
    Legacy.fetchTicketmasterEvents (fun _ => 0) (fun s => s) none
        TMResponse.noEvents ≠ ([] : List Legacy.Event) := by
  refine ⟨rfl, ?_⟩
  intro hc
  have hlen := congrArg List.length hc
  simp [Legacy.fetchTicketmasterEvents, Legacy.MOCK_EVENTS] at hlen

/-- C6 (amended): in the pipeline variant both adapters return the empty
list immediately when the API key is absent, contributing zero events
whatever the network would have answered; the legacy variant Ticketmaster
adapter instead substitutes its built-in mock dataset. -/
theorem c6_missing_key_empty (parseFloat : String → ℝ)
    (formatDate : String → String) (tmResponse : TMResponse)
    (restaurantsResponse barsResponse : YelpResponse) :
    fetchTicketmasterEvents parseFloat formatDate none tmResponse = [] ∧
    fetchYelpEvents none restaurantsResponse barsResponse = [] ∧
    Legacy.fetchTicketmasterEvents parseFloat formatDate none tmResponse =
      Legacy.MOCK_EVENTS :=
  ⟨rfl, rfl, rfl⟩

/-- A raw Ticketmaster event whose provider-native id collides with a
namespaced Yelp id. -/
def rawTMCollision : TMRawEvent :=
  { id := "yelp-0", name := "some event" }

/-- A raw Yelp business with the provider-native id 0. -/
def rawYelpZero : YelpBusiness :=
  { id := "0", name := "some business", latitude := 0, longitude := 0 }

/-- C7 counterexample input: the legacy Ticketmaster mapper keeps the
provider-native id unprefixed, so an id produced by the legacy ticketing
adapter can equal an id produced by the business-listing adapter. -/
theorem c7_counterexample :
    (Legacy.mapTicketmasterEvent (fun _ => 0) (fun s => s)
        rawTMCollision).id = (mapYelpBusiness .food rawYelpZero).id ∧
    (Legacy.mapTicketmasterEvent (fun _ => 0) (fun s => s)
        rawTMCollision).id = "yelp-0" := by
  exact ⟨by decide, by decide⟩

/-- C7 (amended): the pipeline adapters namespace every produced id with
their source tag, tm- for the ticketing provider and yelp- for the
business-listing provider, so ids of events originating from the two
pipeline providers are never equal; the legacy variant mapper returns the
provider-native id with no tag. -/
theorem c7_id_namespacing (parseFloat : String → ℝ)
    (formatDate : String → String) (ev : TMRawEvent)
    (eventCategory : Category) (business : YelpBusiness) :
    (mapTicketmasterEvent parseFloat formatDate ev).id = "tm-" ++ ev.id ∧
    (mapYelpBusiness eventCategory business).id =
      "yelp-" ++ business.id ∧
    (mapTicketmasterEvent parseFloat formatDate ev).id ≠
      (mapYelpBusiness eventCategory business).id ∧
    (Legacy.mapTicketmasterEvent parseFloat formatDate ev).id = ev.id := by
  refine ⟨rfl, rfl, ?_, rfl⟩
  intro hc
  have hc' : "tm-" ++ ev.id = "yelp-" ++ business.id := hc
  have h1 : ("tm-" ++ ev.id).data.head? = some 't' := by
    rw [String.data_append, show "tm-".data = ['t', 'm', '-'] from rfl]
    rfl
  have h2 : ("yelp-" ++ business.id).data.head? = some 'y' := by
    rw [String.data_append,
      show "yelp-".data = ['y', 'e', 'l', 'p', '-'] from rfl]
    rfl
  rw [hc', h2] at h1
  exact absurd h1 (by decide)

/-- Witness for C7 at the collision fixtures: even there the two pipeline
adapters produce distinct namespaced ids. -/
theorem c7_id_namespacing_witness :
    (mapTicketmasterEvent (fun _ => 0) (fun s => s) rawTMCollision).id =
      "tm-" ++ rawTMCollision.id ∧
    (mapYelpBusiness Category.food rawYelpZero).id =
      "yelp-" ++ rawYelpZero.id ∧
    (mapTicketmasterEvent (fun _ => 0) (fun s => s) rawTMCollision).id ≠
      (mapYelpBusiness Category.food rawYelpZero).id ∧
    (Legacy.mapTicketmasterEvent (fun _ => 0) (fun s => s)
        rawTMCollision).id = rawTMCollision.id :=
  c7_id_namespacing (fun _ => 0) (fun s => s) rawTMCollision Category.food
    rawYelpZero
